import Mathlib

/-! # J2ObjC jre_emul native headers: constants, prototypes and NET_ERROR

A shallow embedding of three headers of
`jre_emul/android/platform/libcore/ojluni/src/main/native`:

* `java_util_zip_ZipFile.h`: seven `#define` constants and seventeen
  prototypes, each below a comment giving its JNI descriptor;
* `sun_nio_ch_FileDispatcherImpl.h`: four `#define` constants and fifteen
  prototypes with their descriptors;
* `net_util.h`: `MAX_PACKET_LEN` and the statement-like `NET_ERROR`.

Constants of type `long` are integers (`Int`); a prototype is a record of its
return type and parameter types; `NET_ERROR` is a state transformer over an
environment state whose two callees are parameters.
-/

namespace J2ObjC

/-! ## sun_nio_ch_FileDispatcherImpl.h, lines 37-44 -/

/-- Line 38: `#define sun_nio_ch_FileDispatcherImpl_NO_LOCK -1L`. -/
def sun_nio_ch_FileDispatcherImpl_NO_LOCK : Int := -1

/-- Line 40: `#define sun_nio_ch_FileDispatcherImpl_LOCKED 0L`. -/
def sun_nio_ch_FileDispatcherImpl_LOCKED : Int := 0

/-- Line 42: `#define sun_nio_ch_FileDispatcherImpl_RET_EX_LOCK 1L`. -/
def sun_nio_ch_FileDispatcherImpl_RET_EX_LOCK : Int := 1

/-- Line 44: `#define sun_nio_ch_FileDispatcherImpl_INTERRUPTED 2L`. -/
def sun_nio_ch_FileDispatcherImpl_INTERRUPTED : Int := 2

/-- The `#define` lines of sun_nio_ch_FileDispatcherImpl.h in file order,
each with the name it defines. -/
def sun_nio_ch_FileDispatcherImpl_defines : List (String × Int) :=
  [("sun_nio_ch_FileDispatcherImpl_NO_LOCK", sun_nio_ch_FileDispatcherImpl_NO_LOCK),
   ("sun_nio_ch_FileDispatcherImpl_LOCKED", sun_nio_ch_FileDispatcherImpl_LOCKED),
   ("sun_nio_ch_FileDispatcherImpl_RET_EX_LOCK", sun_nio_ch_FileDispatcherImpl_RET_EX_LOCK),
   ("sun_nio_ch_FileDispatcherImpl_INTERRUPTED", sun_nio_ch_FileDispatcherImpl_INTERRUPTED)]

/-- The lock-result codes: the values the header defines, in file order. -/
def lockResultCodes : List Int :=
  sun_nio_ch_FileDispatcherImpl_defines.map Prod.snd

/-! ## java_util_zip_ZipFile.h, lines 37-50 -/

/-- Line 38: `#define java_util_zip_ZipFile_STORED 0L`. -/
def java_util_zip_ZipFile_STORED : Int := 0

/-- Line 40: `#define java_util_zip_ZipFile_DEFLATED 8L`. -/
def java_util_zip_ZipFile_DEFLATED : Int := 8

/-- Line 42: `#define java_util_zip_ZipFile_OPEN_READ 1L`. -/
def java_util_zip_ZipFile_OPEN_READ : Int := 1

/-- Line 44: `#define java_util_zip_ZipFile_OPEN_DELETE 4L`. -/
def java_util_zip_ZipFile_OPEN_DELETE : Int := 4

/-- Line 46: `#define java_util_zip_ZipFile_JZENTRY_NAME 0L`. -/
def java_util_zip_ZipFile_JZENTRY_NAME : Int := 0

/-- Line 48: `#define java_util_zip_ZipFile_JZENTRY_EXTRA 1L`. -/
def java_util_zip_ZipFile_JZENTRY_EXTRA : Int := 1

/-- Line 50: `#define java_util_zip_ZipFile_JZENTRY_COMMENT 2L`. -/
def java_util_zip_ZipFile_JZENTRY_COMMENT : Int := 2

/-- The `#define` lines of java_util_zip_ZipFile.h in file order, each with
the name it defines. -/
def java_util_zip_ZipFile_defines : List (String × Int) :=
  [("java_util_zip_ZipFile_STORED", java_util_zip_ZipFile_STORED),
   ("java_util_zip_ZipFile_DEFLATED", java_util_zip_ZipFile_DEFLATED),
   ("java_util_zip_ZipFile_OPEN_READ", java_util_zip_ZipFile_OPEN_READ),
   ("java_util_zip_ZipFile_OPEN_DELETE", java_util_zip_ZipFile_OPEN_DELETE),
   ("java_util_zip_ZipFile_JZENTRY_NAME", java_util_zip_ZipFile_JZENTRY_NAME),
   ("java_util_zip_ZipFile_JZENTRY_EXTRA", java_util_zip_ZipFile_JZENTRY_EXTRA),
   ("java_util_zip_ZipFile_JZENTRY_COMMENT", java_util_zip_ZipFile_JZENTRY_COMMENT)]

/-- Whether the characters `p` open the characters `s`. -/
def opensWith : List Char → List Char → Bool
  | [], _ => true
  | _ :: _, [] => false
  | a :: p, b :: s => a == b && opensWith p s

/-- Whether the defined name `n` is the class name `java_util_zip_ZipFile_`
followed by a member name that opens with `family`. -/
def inFamily (family : String) (n : String) : Bool :=
  opensWith ("java_util_zip_ZipFile_".toList ++ family.toList) n.toList

/-- The names the specification groups as the archive compression methods,
"archive compression method {STORED=0, DEFLATED=8}", as the header spells
them. -/
def compressionMethodNames : List String :=
  ["java_util_zip_ZipFile_STORED", "java_util_zip_ZipFile_DEFLATED"]

/-- The compression-method constants the header defines: its `#define`
lines whose name is one of `compressionMethodNames`. -/
def compressionMethodDefines : List (String × Int) :=
  java_util_zip_ZipFile_defines.filter fun d => compressionMethodNames.contains d.1

/-- The entry-byte selectors of the header, in file order. -/
def entryByteSelectors : List (String × Int) :=
  java_util_zip_ZipFile_defines.filter fun d => inFamily "JZENTRY_" d.1

/-! ## net_util.h, line 37 -/

/-- Line 37: `#define MAX_PACKET_LEN 65536`. -/
def MAX_PACKET_LEN : Int := 65536

/-! ## Prototypes -/

/-- The C types the prototypes of the two generated headers use. -/
inductive CType where
  | void
  | jlong
  | jint
  | bool
  | jbyteArray
  | jstring
  | jobject
  | jclass
  | JNIEnvPtr
  deriving DecidableEq, Repr

/-- One declaration of a generated header: the `Method:` and `Signature:`
lines of the comment above it, and the prototype below (function name,
return type, parameter types in order). -/
structure NativeDecl where
  method : String
  signature : String
  name : String
  ret : CType
  params : List CType
  deriving DecidableEq, Repr

open CType

/-! ### java_util_zip_ZipFile.h, lines 52-185 -/

/-- Lines 52-58. -/
def ZipFile_getEntry : NativeDecl :=
  ⟨"getEntry", "(J[BZ)J", "ZipFile_getEntry", jlong,
   [JNIEnvPtr, jclass, jlong, jbyteArray, bool]⟩

/-- Lines 60-66. -/
def ZipFile_freeEntry : NativeDecl :=
  ⟨"freeEntry", "(JJ)V", "ZipFile_freeEntry", void, [JNIEnvPtr, jclass, jlong, jlong]⟩

/-- Lines 68-74. -/
def ZipFile_getNextEntry : NativeDecl :=
  ⟨"getNextEntry", "(JI)J", "ZipFile_getNextEntry", jlong, [JNIEnvPtr, jclass, jlong, jint]⟩

/-- Lines 76-82. -/
def ZipFile_close : NativeDecl :=
  ⟨"close", "(J)V", "ZipFile_close", void, [JNIEnvPtr, jclass, jlong]⟩

/-- Lines 84-90. -/
def ZipFile_open : NativeDecl :=
  ⟨"open", "(Ljava/lang/String;IJZ)J", "ZipFile_open", jlong,
   [JNIEnvPtr, jclass, jstring, jint, jlong, bool]⟩

/-- Lines 92-98. -/
def ZipFile_getTotal : NativeDecl :=
  ⟨"getTotal", "(J)I", "ZipFile_getTotal", jint, [JNIEnvPtr, jclass, jlong]⟩

/-- Lines 100-105. -/
def ZipFile_startsWithLOC : NativeDecl :=
  ⟨"startsWithLOC", "(J)Z", "ZipFile_startsWithLOC", bool, [JNIEnvPtr, jclass, jlong]⟩

/-- Lines 107-113. -/
def ZipFile_read : NativeDecl :=
  ⟨"read", "(JJJ[BII)I", "ZipFile_read", jint,
   [JNIEnvPtr, jclass, jlong, jlong, jlong, jbyteArray, jint, jint]⟩

/-- Lines 115-121. -/
def ZipFile_getEntryTime : NativeDecl :=
  ⟨"getEntryTime", "(J)J", "ZipFile_getEntryTime", jlong, [JNIEnvPtr, jclass, jlong]⟩

/-- Lines 123-129. -/
def ZipFile_getEntryCrc : NativeDecl :=
  ⟨"getEntryCrc", "(J)J", "ZipFile_getEntryCrc", jlong, [JNIEnvPtr, jclass, jlong]⟩

/-- Lines 131-137. -/
def ZipFile_getEntryCSize : NativeDecl :=
  ⟨"getEntryCSize", "(J)J", "ZipFile_getEntryCSize", jlong, [JNIEnvPtr, jclass, jlong]⟩

/-- Lines 139-145. -/
def ZipFile_getEntrySize : NativeDecl :=
  ⟨"getEntrySize", "(J)J", "ZipFile_getEntrySize", jlong, [JNIEnvPtr, jclass, jlong]⟩

/-- Lines 147-153. -/
def ZipFile_getEntryMethod : NativeDecl :=
  ⟨"getEntryMethod", "(J)I", "ZipFile_getEntryMethod", jint, [JNIEnvPtr, jclass, jlong]⟩

/-- Lines 155-161. -/
def ZipFile_getEntryFlag : NativeDecl :=
  ⟨"getEntryFlag", "(J)I", "ZipFile_getEntryFlag", jint, [JNIEnvPtr, jclass, jlong]⟩

/-- Lines 163-169. -/
def ZipFile_getCommentBytes : NativeDecl :=
  ⟨"getCommentBytes", "(J)[B", "ZipFile_getCommentBytes", jbyteArray,
   [JNIEnvPtr, jclass, jlong]⟩

/-- Lines 171-177. -/
def ZipFile_getEntryBytes : NativeDecl :=
  ⟨"getEntryBytes", "(JI)[B", "ZipFile_getEntryBytes", jbyteArray,
   [JNIEnvPtr, jclass, jlong, jint]⟩

/-- Lines 179-185. -/
def ZipFile_getZipMessage : NativeDecl :=
  ⟨"getZipMessage", "(J)Ljava/lang/String;", "ZipFile_getZipMessage", jstring,
   [JNIEnvPtr, jclass, jlong]⟩

/-- The declarations of java_util_zip_ZipFile.h in file order. -/
def java_util_zip_ZipFile_decls : List NativeDecl :=
  [ZipFile_getEntry, ZipFile_freeEntry, ZipFile_getNextEntry, ZipFile_close, ZipFile_open,
   ZipFile_getTotal, ZipFile_startsWithLOC, ZipFile_read, ZipFile_getEntryTime,
   ZipFile_getEntryCrc, ZipFile_getEntryCSize, ZipFile_getEntrySize, ZipFile_getEntryMethod,
   ZipFile_getEntryFlag, ZipFile_getCommentBytes, ZipFile_getEntryBytes,
   ZipFile_getZipMessage]

/-! ### sun_nio_ch_FileDispatcherImpl.h, lines 45-166 -/

/-- Lines 45-51. -/
def Java_sun_nio_ch_FileDispatcherImpl_read0 : NativeDecl :=
  ⟨"read0", "(Ljava/io/FileDescriptor;JI)I", "Java_sun_nio_ch_FileDispatcherImpl_read0", jint,
   [JNIEnvPtr, jclass, jobject, jlong, jint]⟩

/-- Lines 53-59. -/
def Java_sun_nio_ch_FileDispatcherImpl_pread0 : NativeDecl :=
  ⟨"pread0", "(Ljava/io/FileDescriptor;JIJ)I", "Java_sun_nio_ch_FileDispatcherImpl_pread0", jint,
   [JNIEnvPtr, jclass, jobject, jlong, jint, jlong]⟩

/-- Lines 61-67. -/
def Java_sun_nio_ch_FileDispatcherImpl_readv0 : NativeDecl :=
  ⟨"readv0", "(Ljava/io/FileDescriptor;JI)J", "Java_sun_nio_ch_FileDispatcherImpl_readv0", jlong,
   [JNIEnvPtr, jclass, jobject, jlong, jint]⟩

/-- Lines 69-75. -/
def Java_sun_nio_ch_FileDispatcherImpl_write0 : NativeDecl :=
  ⟨"write0", "(Ljava/io/FileDescriptor;JI)I", "Java_sun_nio_ch_FileDispatcherImpl_write0", jint,
   [JNIEnvPtr, jclass, jobject, jlong, jint]⟩

/-- Lines 77-83. -/
def Java_sun_nio_ch_FileDispatcherImpl_pwrite0 : NativeDecl :=
  ⟨"pwrite0", "(Ljava/io/FileDescriptor;JIJ)I", "Java_sun_nio_ch_FileDispatcherImpl_pwrite0",
   jint, [JNIEnvPtr, jclass, jobject, jlong, jint, jlong]⟩

/-- Lines 85-91. -/
def Java_sun_nio_ch_FileDispatcherImpl_writev0 : NativeDecl :=
  ⟨"writev0", "(Ljava/io/FileDescriptor;JI)J", "Java_sun_nio_ch_FileDispatcherImpl_writev0",
   jlong, [JNIEnvPtr, jclass, jobject, jlong, jint]⟩

/-- Lines 93-100. -/
def Java_sun_nio_ch_FileDispatcherImpl_force0 : NativeDecl :=
  ⟨"force0", "(Ljava/io/FileDescriptor;Z)I", "Java_sun_nio_ch_FileDispatcherImpl_force0", jint,
   [JNIEnvPtr, jclass, jobject, bool]⟩

/-- Lines 102-108. -/
def Java_sun_nio_ch_FileDispatcherImpl_truncate0 : NativeDecl :=
  ⟨"truncate0", "(Ljava/io/FileDescriptor;J)I", "Java_sun_nio_ch_FileDispatcherImpl_truncate0",
   jint, [JNIEnvPtr, jclass, jobject, jlong]⟩

/-- Lines 110-116. -/
def Java_sun_nio_ch_FileDispatcherImpl_size0 : NativeDecl :=
  ⟨"size0", "(Ljava/io/FileDescriptor;)J", "Java_sun_nio_ch_FileDispatcherImpl_size0", jlong,
   [JNIEnvPtr, jclass, jobject]⟩

/-- Lines 118-126: the prototype of lock0 (its body is in no file here). -/
def Java_sun_nio_ch_FileDispatcherImpl_lock0_decl : NativeDecl :=
  ⟨"lock0", "(Ljava/io/FileDescriptor;ZJJZ)I", "Java_sun_nio_ch_FileDispatcherImpl_lock0", jint,
   [JNIEnvPtr, jclass, jobject, bool, jlong, jlong, bool]⟩

/-- Lines 128-134. -/
def Java_sun_nio_ch_FileDispatcherImpl_release0 : NativeDecl :=
  ⟨"release0", "(Ljava/io/FileDescriptor;JJ)V", "Java_sun_nio_ch_FileDispatcherImpl_release0",
   void, [JNIEnvPtr, jclass, jobject, jlong, jlong]⟩

/-- Lines 136-142. -/
def Java_sun_nio_ch_FileDispatcherImpl_close0 : NativeDecl :=
  ⟨"close0", "(Ljava/io/FileDescriptor;)V", "Java_sun_nio_ch_FileDispatcherImpl_close0", void,
   [JNIEnvPtr, jclass, jobject]⟩

/-- Lines 144-150. -/
def Java_sun_nio_ch_FileDispatcherImpl_preClose0 : NativeDecl :=
  ⟨"preClose0", "(Ljava/io/FileDescriptor;)V", "Java_sun_nio_ch_FileDispatcherImpl_preClose0",
   void, [JNIEnvPtr, jclass, jobject]⟩

/-- Lines 152-158. -/
def Java_sun_nio_ch_FileDispatcherImpl_closeIntFD : NativeDecl :=
  ⟨"closeIntFD", "(I)V", "Java_sun_nio_ch_FileDispatcherImpl_closeIntFD", void,
   [JNIEnvPtr, jclass, jint]⟩

/-- Lines 160-166. -/
def Java_sun_nio_ch_FileDispatcherImpl_init : NativeDecl :=
  ⟨"init", "()V", "Java_sun_nio_ch_FileDispatcherImpl_init", void, [JNIEnvPtr, jclass]⟩

/-- The declarations of sun_nio_ch_FileDispatcherImpl.h in file order. -/
def sun_nio_ch_FileDispatcherImpl_decls : List NativeDecl :=
  [Java_sun_nio_ch_FileDispatcherImpl_read0, Java_sun_nio_ch_FileDispatcherImpl_pread0,
   Java_sun_nio_ch_FileDispatcherImpl_readv0, Java_sun_nio_ch_FileDispatcherImpl_write0,
   Java_sun_nio_ch_FileDispatcherImpl_pwrite0, Java_sun_nio_ch_FileDispatcherImpl_writev0,
   Java_sun_nio_ch_FileDispatcherImpl_force0, Java_sun_nio_ch_FileDispatcherImpl_truncate0,
   Java_sun_nio_ch_FileDispatcherImpl_size0, Java_sun_nio_ch_FileDispatcherImpl_lock0_decl,
   Java_sun_nio_ch_FileDispatcherImpl_release0, Java_sun_nio_ch_FileDispatcherImpl_close0,
   Java_sun_nio_ch_FileDispatcherImpl_preClose0, Java_sun_nio_ch_FileDispatcherImpl_closeIntFD,
   Java_sun_nio_ch_FileDispatcherImpl_init]

/-- Every native method the two generated headers declare. -/
def generatedDecls : List NativeDecl :=
  java_util_zip_ZipFile_decls ++ sun_nio_ch_FileDispatcherImpl_decls

/-! ### The descriptor reading of a prototype

The mapping of descriptor letters to C types is the one the claim about the
descriptors states: `J` is jlong, `I` is jint, `Z` is bool, `[B` is
jbyteArray, `Ljava/lang/String;` is jstring, any other `L...;` is jobject,
and `V` is void. -/

/-- Where the scan of a descriptor stands: between two types, after a `[`,
or inside a class name whose characters so far are kept in reverse. -/
inductive ScanState where
  | top
  | array
  | className (seen : List Char)

/-- The C type a class name stands for: jstring for `java/lang/String`,
jobject for every other class. -/
def classCType (cls : List Char) : CType :=
  if cls = "java/lang/String".toList then jstring else jobject

/-- The C types a run of descriptor characters stands for, or `none` when
the run is no sequence of descriptor types. -/
def scanTypes : ScanState → List Char → Option (List CType)
  | .top, [] => some []
  | .top, c :: cs =>
    if c = 'J' then (scanTypes .top cs).map (jlong :: ·)
    else if c = 'I' then (scanTypes .top cs).map (jint :: ·)
    else if c = 'Z' then (scanTypes .top cs).map (bool :: ·)
    else if c = 'V' then (scanTypes .top cs).map (void :: ·)
    else if c = '[' then scanTypes .array cs
    else if c = 'L' then scanTypes (.className []) cs
    else none
  | .array, [] => none
  | .array, c :: cs =>
    if c = 'B' then (scanTypes .top cs).map (jbyteArray :: ·) else none
  | .className _, [] => none
  | .className seen, c :: cs =>
    if c = ';' then (scanTypes .top cs).map (classCType seen.reverse :: ·)
    else scanTypes (.className (c :: seen)) cs

/-- The prototype a JNI descriptor `(args)ret` prescribes: the two leading
parameters `JNIEnv *` and jclass, then one parameter per descriptor argument
in order, and the return type; `none` when the text is no descriptor. -/
def descriptorPrototype (d : String) : Option (CType × List CType) :=
  match d.toList with
  | '(' :: rest =>
    match rest.dropWhile (· ≠ ')') with
    | ')' :: r =>
      match scanTypes .top (rest.takeWhile (· ≠ ')')), scanTypes .top r with
      | some args, some [t] =>
        if args.contains void then none else some (t, JNIEnvPtr :: jclass :: args)
      | _, _ => none
    | _ => none
  | _ => none

/-- Whether a declaration's prototype is the one its descriptor prescribes. -/
def agreesWithDescriptor (d : NativeDecl) : Bool :=
  descriptorPrototype d.signature == some (d.ret, d.params)

/-! ## Lock attempts (sun_nio_ch_FileDispatcherImpl.h, lines 118-126) -/

/-- Modelled from the spec: the body of Java_sun_nio_ch_FileDispatcherImpl_lock0
is in no file here (only the prototype is); the glossary gives the outcome of
a file-range locking attempt as "one of {no-lock, locked, pending-exclusive,
interrupted}". -/
inductive LockOutcome where
  | noLock
  | locked
  | pendingExclusive
  | interrupted
  deriving DecidableEq, Repr

/-- Modelled from the spec: the code of an outcome, pairing the glossary's
outcomes with "lock-result codes {NO_LOCK=-1, LOCKED=0, RET_EX_LOCK=1,
INTERRUPTED=2}" in the order both lists are given; the values are the
header's constants. -/
def LockOutcome.code : LockOutcome → Int
  | .noLock => sun_nio_ch_FileDispatcherImpl_NO_LOCK
  | .locked => sun_nio_ch_FileDispatcherImpl_LOCKED
  | .pendingExclusive => sun_nio_ch_FileDispatcherImpl_RET_EX_LOCK
  | .interrupted => sun_nio_ch_FileDispatcherImpl_INTERRUPTED

/-- Modelled from the spec: the body of lock0 is in no file here; the spec
says "lock0/release0 with exclusive/shared and blocking/non-blocking variants
returning one of the lock-result codes". The locking attempt of the
operating system is the parameter `attempt`; the arguments after it are those
of the prototype (file descriptor object, blocking flag, position, size,
shared flag), and the result is the jint the call returns. -/
def Java_sun_nio_ch_FileDispatcherImpl_lock0 {FileDescriptor : Type}
    (attempt : FileDescriptor → Bool → Int → Int → Bool → LockOutcome)
    (fdo : FileDescriptor) (block : Bool) (pos size : Int) (shared : Bool) : Int :=
  (attempt fdo block pos size shared).code

/-! ## net_util.h, lines 42-43 -/

/-- Lines 42-43:
`{ if (!(*env)->ExceptionOccurred(env)) JNU_ThrowByName(env, ex, msg); }`.
The state of the environment is `σ`. The two callees are declared in jni.h
and jni_util.h, which are not among the sources, and are parameters:
`ExceptionOccurred` gives the pending throwable if there is one (a null
reference is `none`), `JNU_ThrowByName` maps the state before the call to
the state after it. -/
def NET_ERROR {σ τ : Type} (ExceptionOccurred : σ → Option τ)
    (JNU_ThrowByName : σ → String → String → σ) (env : σ) (ex msg : String) : σ :=
  if (ExceptionOccurred env).isNone then JNU_ThrowByName env ex msg else env

/-- A callee instrumented with a log: the state is paired with the list of
the `(ex, msg)` arguments of the calls made so far, oldest first. -/
def logged {σ : Type} (JNU_ThrowByName : σ → String → String → σ) :
    σ × List (String × String) → String → String → σ × List (String × String) :=
  fun s ex msg => (JNU_ThrowByName s.1 ex msg, s.2 ++ [(ex, msg)])

/-- A concrete environment state: the pending exception, as the class name
and message it was thrown with, if there is one. -/
abbrev PendingException := Option (String × String)

/-- A concrete JNU_ThrowByName over `PendingException`: the named exception
with the message becomes the pending one. -/
def throwNamed : PendingException → String → String → PendingException :=
  fun _ ex msg => some (ex, msg)

/-! ## Theorems -/

/-- C1: the four lock-result codes are NO_LOCK = -1, LOCKED = 0,
RET_EX_LOCK = 1 and INTERRUPTED = 2; they are the header's only constants,
they are pairwise distinct, and every code is the value of exactly one of
the four names, so a returned code identifies one outcome. -/
theorem lock_result_codes_closed_enumeration :
    sun_nio_ch_FileDispatcherImpl_NO_LOCK = -1 ∧
    sun_nio_ch_FileDispatcherImpl_LOCKED = 0 ∧
    sun_nio_ch_FileDispatcherImpl_RET_EX_LOCK = 1 ∧
    sun_nio_ch_FileDispatcherImpl_INTERRUPTED = 2 ∧
    lockResultCodes =
      [sun_nio_ch_FileDispatcherImpl_NO_LOCK, sun_nio_ch_FileDispatcherImpl_LOCKED,
       sun_nio_ch_FileDispatcherImpl_RET_EX_LOCK, sun_nio_ch_FileDispatcherImpl_INTERRUPTED] ∧
    lockResultCodes.Nodup ∧
    (∀ c ∈ lockResultCodes,
      (sun_nio_ch_FileDispatcherImpl_defines.filter fun d => d.2 == c).length = 1) := by
  decide

/-- C2: STORED = 0 and DEFLATED = 8 are distinct; the compression-method
constants of the header are these two and no other, every remaining
`#define` of the header being an OPEN_ flag or a JZENTRY_ selector; the set
of their values is exactly {0, 8}. -/
theorem compression_methods_are_stored_and_deflated :
    java_util_zip_ZipFile_STORED = 0 ∧
    java_util_zip_ZipFile_DEFLATED = 8 ∧
    java_util_zip_ZipFile_STORED ≠ java_util_zip_ZipFile_DEFLATED ∧
    compressionMethodDefines =
      [("java_util_zip_ZipFile_STORED", 0), ("java_util_zip_ZipFile_DEFLATED", 8)] ∧
    (∀ d ∈ java_util_zip_ZipFile_defines,
      d ∈ compressionMethodDefines ∨ inFamily "OPEN_" d.1 = true ∨
        inFamily "JZENTRY_" d.1 = true) ∧
    (∀ d ∈ compressionMethodDefines,
      inFamily "OPEN_" d.1 = false ∧ inFamily "JZENTRY_" d.1 = false) ∧
    (∀ v : Int, v ∈ compressionMethodDefines.map Prod.snd ↔ v = 0 ∨ v = 8) := by
  refine ⟨by decide, by decide, by decide, by decide, by decide, by decide, ?_⟩
  intro v
  have h : compressionMethodDefines.map Prod.snd = [0, 8] := by decide
  rw [h]
  simp

/-- C3: OPEN_READ = 1 and OPEN_DELETE = 4 are single bits (2^0 and 2^2)
with no bit in common, their OR is 5, and for the mode word that ORs any
subset of the two (READ in it iff `r`, DELETE in it iff `d`) the AND with
each flag is that flag when it was combined and 0 when it was not. -/
theorem open_mode_flags_recover_subset :
    java_util_zip_ZipFile_OPEN_READ = 1 ∧
    java_util_zip_ZipFile_OPEN_DELETE = 4 ∧
    java_util_zip_ZipFile_OPEN_READ = 2 ^ 0 ∧
    java_util_zip_ZipFile_OPEN_DELETE = 2 ^ 2 ∧
    Int.land java_util_zip_ZipFile_OPEN_READ java_util_zip_ZipFile_OPEN_DELETE = 0 ∧
    Int.lor java_util_zip_ZipFile_OPEN_READ java_util_zip_ZipFile_OPEN_DELETE = 5 ∧
    ∀ r d : Bool,
      Int.land
          (Int.lor (if r then java_util_zip_ZipFile_OPEN_READ else 0)
            (if d then java_util_zip_ZipFile_OPEN_DELETE else 0))
          java_util_zip_ZipFile_OPEN_READ
        = (if r then java_util_zip_ZipFile_OPEN_READ else 0) ∧
      Int.land
          (Int.lor (if r then java_util_zip_ZipFile_OPEN_READ else 0)
            (if d then java_util_zip_ZipFile_OPEN_DELETE else 0))
          java_util_zip_ZipFile_OPEN_DELETE
        = (if d then java_util_zip_ZipFile_OPEN_DELETE else 0) ∧
      (decide (Int.land
          (Int.lor (if r then java_util_zip_ZipFile_OPEN_READ else 0)
            (if d then java_util_zip_ZipFile_OPEN_DELETE else 0))
          java_util_zip_ZipFile_OPEN_READ ≠ 0) = r) ∧
      (decide (Int.land
          (Int.lor (if r then java_util_zip_ZipFile_OPEN_READ else 0)
            (if d then java_util_zip_ZipFile_OPEN_DELETE else 0))
          java_util_zip_ZipFile_OPEN_DELETE ≠ 0) = d) := by
  decide

/-- C4: ZipFile_open and ZipFile_read are declared in java_util_zip_ZipFile.h;
after `JNIEnv *` and jclass, ZipFile_open takes exactly four arguments, of
types jstring, jint, jlong, bool in this order, and returns jlong;
ZipFile_read takes exactly six, of types jlong, jlong, jlong, jbyteArray,
jint, jint in this order, and returns jint. -/
theorem ZipFile_open_and_read_shapes :
    ZipFile_open ∈ java_util_zip_ZipFile_decls ∧
    ZipFile_open.name = "ZipFile_open" ∧
    ZipFile_open.params.take 2 = [JNIEnvPtr, jclass] ∧
    ZipFile_open.params.drop 2 = [jstring, jint, jlong, bool] ∧
    (ZipFile_open.params.drop 2).length = 4 ∧
    ZipFile_open.ret = jlong ∧
    ZipFile_read ∈ java_util_zip_ZipFile_decls ∧
    ZipFile_read.name = "ZipFile_read" ∧
    ZipFile_read.params.take 2 = [JNIEnvPtr, jclass] ∧
    ZipFile_read.params.drop 2 = [jlong, jlong, jlong, jbyteArray, jint, jint] ∧
    (ZipFile_read.params.drop 2).length = 6 ∧
    ZipFile_read.ret = jint ∧
    (java_util_zip_ZipFile_decls.filter fun d =>
      d.name == "ZipFile_open" || d.name == "ZipFile_read") = [ZipFile_open, ZipFile_read] := by
  decide

set_option maxRecDepth 4096 in
/-- C5: the two generated headers declare 17 and 15 native methods, 32 in
all and no two alike; for every one of them the prototype is the one its
JNI descriptor prescribes: `JNIEnv *` and jclass first, then one parameter
per descriptor argument in order and the return type, under J to jlong, I to
jint, Z to bool, `[B` to jbyteArray, `Ljava/lang/String;` to jstring, any
other class to jobject and V to void. -/
theorem prototypes_agree_with_descriptors :
    java_util_zip_ZipFile_decls.length = 17 ∧
    sun_nio_ch_FileDispatcherImpl_decls.length = 15 ∧
    generatedDecls.length = 32 ∧
    (generatedDecls.map fun d => d.name).Nodup ∧
    ∀ d ∈ generatedDecls,
      descriptorPrototype d.signature = some (d.ret, d.params) ∧
      d.params.take 2 = [JNIEnvPtr, jclass] ∧
      (d.params.drop 2).all (fun t => t != JNIEnvPtr && t != jclass && t != void) = true := by
  decide

/-- C6: a lock-result code is negative if and only if it is NO_LOCK, and
the success code LOCKED is exactly zero. -/
theorem negative_lock_result_is_no_lock (c : Int) (h : c ∈ lockResultCodes) :
    (c < 0 ↔ c = sun_nio_ch_FileDispatcherImpl_NO_LOCK) ∧
    (0 ≤ c ↔ c ≠ sun_nio_ch_FileDispatcherImpl_NO_LOCK) ∧
    sun_nio_ch_FileDispatcherImpl_LOCKED = 0 := by
  have hc : c = -1 ∨ c = 0 ∨ c = 1 ∨ c = 2 := by
    have hl : lockResultCodes = [-1, 0, 1, 2] := by decide
    rw [hl] at h
    simpa using h
  have hn : sun_nio_ch_FileDispatcherImpl_NO_LOCK = -1 := rfl
  rw [hn]
  refine ⟨?_, ?_, rfl⟩ <;> rcases hc with h | h | h | h <;> subst h <;> decide

/-- Witness for C6 at the code -1. -/
theorem negative_lock_result_is_no_lock_witness :
    (-1 : Int) ∈ lockResultCodes ∧
    (((-1 : Int) < 0 ↔ (-1 : Int) = sun_nio_ch_FileDispatcherImpl_NO_LOCK) ∧
     ((0 : Int) ≤ -1 ↔ (-1 : Int) ≠ sun_nio_ch_FileDispatcherImpl_NO_LOCK) ∧
     sun_nio_ch_FileDispatcherImpl_LOCKED = 0) :=
  ⟨by decide, negative_lock_result_is_no_lock (-1) (by decide)⟩

/-- C7: for every locking attempt of the operating system and every file
descriptor, blocking flag, position, size and shared flag, the jint that
lock0 returns is one of NO_LOCK, LOCKED, RET_EX_LOCK, INTERRUPTED, that is
one of -1, 0, 1, 2. -/
theorem lock0_returns_lock_result_code {FileDescriptor : Type}
    (attempt : FileDescriptor → Bool → Int → Int → Bool → LockOutcome)
    (fdo : FileDescriptor) (block : Bool) (pos size : Int) (shared : Bool) :
    Java_sun_nio_ch_FileDispatcherImpl_lock0 attempt fdo block pos size shared
        ∈ lockResultCodes ∧
    Java_sun_nio_ch_FileDispatcherImpl_lock0 attempt fdo block pos size shared
        ∈ [sun_nio_ch_FileDispatcherImpl_NO_LOCK, sun_nio_ch_FileDispatcherImpl_LOCKED,
           sun_nio_ch_FileDispatcherImpl_RET_EX_LOCK,
           sun_nio_ch_FileDispatcherImpl_INTERRUPTED] ∧
    Java_sun_nio_ch_FileDispatcherImpl_lock0 attempt fdo block pos size shared
        ∈ ([-1, 0, 1, 2] : List Int) := by
  unfold Java_sun_nio_ch_FileDispatcherImpl_lock0
  cases attempt fdo block pos size shared <;> decide

/-- C8: NET_ERROR never replaces a pending exception. With an exception
pending the state is unchanged; with none pending the result is that of
JNU_ThrowByName on the same state with the same ex and msg; in both cases the
log of calls to JNU_ThrowByName grows by exactly that one call or not at
all; and when JNU_ThrowByName always leaves an exception pending, a second
NET_ERROR (with any ex and msg) after a first gives the state the first
gave. -/
theorem NET_ERROR_keeps_first_exception {σ τ : Type} (ExceptionOccurred : σ → Option τ)
    (JNU_ThrowByName : σ → String → String → σ) (env : σ) (ex msg : String) :
    ((ExceptionOccurred env).isSome = true →
      NET_ERROR ExceptionOccurred JNU_ThrowByName env ex msg = env) ∧
    ((ExceptionOccurred env).isSome = false →
      NET_ERROR ExceptionOccurred JNU_ThrowByName env ex msg = JNU_ThrowByName env ex msg) ∧
    (∀ log : List (String × String),
      NET_ERROR (fun s => ExceptionOccurred s.1) (logged JNU_ThrowByName) (env, log) ex msg
        = (NET_ERROR ExceptionOccurred JNU_ThrowByName env ex msg,
           if (ExceptionOccurred env).isSome then log else log ++ [(ex, msg)])) ∧
    ((∀ s e m, (ExceptionOccurred (JNU_ThrowByName s e m)).isSome = true) →
      ∀ ex2 msg2 : String,
        NET_ERROR ExceptionOccurred JNU_ThrowByName
            (NET_ERROR ExceptionOccurred JNU_ThrowByName env ex msg) ex2 msg2
          = NET_ERROR ExceptionOccurred JNU_ThrowByName env ex msg) := by
  refine ⟨?_, ?_, ?_, ?_⟩
  · intro h
    cases hx : ExceptionOccurred env <;> simp_all [NET_ERROR]
  · intro h
    cases hx : ExceptionOccurred env <;> simp_all [NET_ERROR]
  · intro log
    cases hx : ExceptionOccurred env <;> simp [NET_ERROR, logged, hx]
  · intro hthrow ex2 msg2
    cases hx : ExceptionOccurred env with
    | some t => simp [NET_ERROR, hx]
    | none =>
      have h1 : NET_ERROR ExceptionOccurred JNU_ThrowByName env ex msg
          = JNU_ThrowByName env ex msg := by simp [NET_ERROR, hx]
      rw [h1]
      have h2 := hthrow env ex msg
      cases hy : ExceptionOccurred (JNU_ThrowByName env ex msg) with
      | some t => simp [NET_ERROR, hy]
      | none => simp [hy] at h2

/-- Witness for C8 on the concrete state `PendingException`: throwNamed
always leaves an exception pending, and after NET_ERROR on a state with
nothing pending a second NET_ERROR with another exception changes nothing. -/
theorem NET_ERROR_keeps_first_exception_witness :
    (∀ s e m, (id (throwNamed s e m)).isSome = true) ∧
    NET_ERROR id throwNamed none "java/net/SocketException" "first"
      = some ("java/net/SocketException", "first") ∧
    NET_ERROR id throwNamed
        (NET_ERROR id throwNamed none "java/net/SocketException" "first")
        "java/net/BindException" "second"
      = some ("java/net/SocketException", "first") :=
  ⟨fun _ _ _ => rfl, rfl,
   ((NET_ERROR_keeps_first_exception (id : PendingException → PendingException) throwNamed none
      "java/net/SocketException" "first").2.2.2 (fun _ _ _ => rfl)
      "java/net/BindException" "second").trans rfl⟩

/-- C9: the entry-byte selectors are JZENTRY_NAME = 0, JZENTRY_EXTRA = 1 and
JZENTRY_COMMENT = 2, the jint argument of ZipFile_getEntryBytes; they are
pairwise distinct, their values are exactly the integers from 0 to 2, and
every value in that range is the value of exactly one of the three. -/
theorem entry_byte_selectors_contiguous :
    java_util_zip_ZipFile_JZENTRY_NAME = 0 ∧
    java_util_zip_ZipFile_JZENTRY_EXTRA = 1 ∧
    java_util_zip_ZipFile_JZENTRY_COMMENT = 2 ∧
    entryByteSelectors =
      [("java_util_zip_ZipFile_JZENTRY_NAME", java_util_zip_ZipFile_JZENTRY_NAME),
       ("java_util_zip_ZipFile_JZENTRY_EXTRA", java_util_zip_ZipFile_JZENTRY_EXTRA),
       ("java_util_zip_ZipFile_JZENTRY_COMMENT", java_util_zip_ZipFile_JZENTRY_COMMENT)] ∧
    (entryByteSelectors.map Prod.snd).Nodup ∧
    ZipFile_getEntryBytes.params = [JNIEnvPtr, jclass, jlong, jint] ∧
    (∀ k : Int, k ∈ entryByteSelectors.map Prod.snd ↔ 0 ≤ k ∧ k ≤ 2) ∧
    (∀ k : Int, 0 ≤ k → k ≤ 2 → ∃! d, d ∈ entryByteSelectors ∧ d.2 = k) := by
  have hs : entryByteSelectors =
      [("java_util_zip_ZipFile_JZENTRY_NAME", 0), ("java_util_zip_ZipFile_JZENTRY_EXTRA", 1),
       ("java_util_zip_ZipFile_JZENTRY_COMMENT", 2)] := by decide
  refine ⟨rfl, rfl, rfl, by decide, by decide, by decide, ?_, ?_⟩
  · intro k
    rw [hs]
    simp only [List.map, List.mem_cons, List.mem_singleton, List.not_mem_nil, or_false]
    omega
  · intro k h0 h2
    rw [hs]
    have hk : k = 0 ∨ k = 1 ∨ k = 2 := by omega
    rcases hk with h | h | h <;> subst h
    · refine ⟨("java_util_zip_ZipFile_JZENTRY_NAME", 0), by simp, ?_⟩
      rintro ⟨n, v⟩ ⟨hm, hv⟩
      simp at hm hv
      subst hv
      simpa using hm
    · refine ⟨("java_util_zip_ZipFile_JZENTRY_EXTRA", 1), by simp, ?_⟩
      rintro ⟨n, v⟩ ⟨hm, hv⟩
      simp at hm hv
      subst hv
      simpa using hm
    · refine ⟨("java_util_zip_ZipFile_JZENTRY_COMMENT", 2), by simp, ?_⟩
      rintro ⟨n, v⟩ ⟨hm, hv⟩
      simp at hm hv
      subst hv
      simpa using hm

/-- C10: MAX_PACKET_LEN is 65536 = 2^16; every length of an unsigned
16-bit field, from 0 to 65535, is strictly below it; and it is itself beyond
that range: it exceeds 65535 and its low 16 bits are 0, not 65536. -/
theorem max_packet_len_exceeds_16_bit (n : Int) (h0 : 0 ≤ n) (h16 : n < 2 ^ 16) :
    MAX_PACKET_LEN = 65536 ∧ MAX_PACKET_LEN = 2 ^ 16 ∧ n < MAX_PACKET_LEN ∧
    n ≤ 65535 ∧ ¬ MAX_PACKET_LEN < 2 ^ 16 ∧ MAX_PACKET_LEN % 2 ^ 16 ≠ MAX_PACKET_LEN := by
  have hm : MAX_PACKET_LEN = 65536 := rfl
  rw [hm]
  norm_num at h16 ⊢
  omega

/-- Witness for C10 at the largest 16-bit length, 65535. -/
theorem max_packet_len_exceeds_16_bit_witness :
    (0 : Int) ≤ 65535 ∧ (65535 : Int) < 2 ^ 16 ∧ (65535 : Int) < MAX_PACKET_LEN :=
  ⟨by norm_num, by norm_num, (max_packet_len_exceeds_16_bit 65535 (by norm_num) (by norm_num)).2.2.1⟩

end J2ObjC
